import Mathlib

/-!
Verification development for the reddit-google-info-agent repository.

The Python sources are shallowly embedded:
* pure string/list manipulation is translated to computable Lean functions on
  `String` / `List Char` (regex character classes are modelled on the ASCII
  fragment, which is the fragment all claims and examples exercise);
* calls to external services (the LLM backend, the Reddit client, the Google
  grounding client, the file system) are passed in as oracle arguments of type
  `Except String α`: `.ok v` models a normal return, `.error e` models the call
  raising an exception with text `e`;
* the append-only JSON log stores are modelled as Lean lists of records, and a
  `writable` flag models whether the underlying file write succeeds;
* wall-clock times (`time.time()` latencies) are omitted: no claim mentions
  them and they are floating point.  Timestamps and uuid session ids are taken
  from explicit streams passed as arguments.
-/

/-! ### ASCII character classes used by the regexes in `tools.py`

`re.sub(r'[^\w\s-]', ...)` and `re.sub(r'[-\s]+', ...)` use the classes `\w`
(word characters: letters, digits, underscore) and `\s` (whitespace).  We model
their ASCII fragment; `.lower()` on basic latin letters is `Char.toLower`. -/

/-- `A`–`Z` (ASCII 65–90). -/
def isUpperAscii (c : Char) : Bool :=
  decide (65 ≤ c.toNat) && decide (c.toNat ≤ 90)

/-- Python regex `\w` (ASCII fragment): letters, digits, or underscore `_`. -/
def isWordChar (c : Char) : Bool :=
  isUpperAscii c || (decide (97 ≤ c.toNat) && decide (c.toNat ≤ 122))
    || (decide (48 ≤ c.toNat) && decide (c.toNat ≤ 57)) || decide (c.toNat = 95)

/-- Python regex `\s` (ASCII fragment): space or `\t`, `\n`, `\v`, `\f`, `\r`. -/
def isSpaceChar (c : Char) : Bool :=
  decide (c.toNat = 32) || (decide (9 ≤ c.toNat) && decide (c.toNat ≤ 13))

/-- The class `[-\s]` of `re.sub(r'[-\s]+', '_', ...)`: hyphen or whitespace. -/
def isHyphenOrWs (c : Char) : Bool :=
  decide (c.toNat = 45) || isSpaceChar c

/-- Python slicing `s[:n]` on strings. -/
def pyTake (n : Nat) (s : String) : String :=
  String.mk (s.data.take n)

/-- Python `str.lower()` (ASCII fragment, per-character `Char.toLower`). -/
def pyLower (s : String) : String :=
  String.mk (s.data.map Char.toLower)

/-- Python `str.strip()`: drop whitespace from both ends. -/
def stripWs (l : List Char) : List Char :=
  ((l.dropWhile isSpaceChar).reverse.dropWhile isSpaceChar).reverse

/-- `re.sub(r'[-\s]+', '_', s)`: replace every maximal run of hyphens and
whitespace by a single underscore.  The `inRun` flag records whether the
previous character belonged to such a run. -/
def collapseRunsAux : Bool → List Char → List Char
  | _, [] => []
  | inRun, c :: rest =>
    if isHyphenOrWs c then
      if inRun then collapseRunsAux true rest
      else '_' :: collapseRunsAux true rest
    else c :: collapseRunsAux false rest

def collapseRuns (l : List Char) : List Char :=
  collapseRunsAux false l

/-- The topic sanitization of `save_content_to_file` (tools.py lines 433–436):
```
sanitized_topic = re.sub(r'[^\w\s-]', '', topic).strip().replace(' ', '_')
sanitized_topic = re.sub(r'[-\s]+', '_', sanitized_topic).lower()
```
-/
def sanitizeTopicL (l : List Char) : List Char :=
  let s1 := l.filter (fun c => isWordChar c || isSpaceChar c || decide (c = '-'))
  let s2 := stripWs s1
  let s3 := s2.map (fun c => if c = ' ' then '_' else c)
  (collapseRuns s3).map Char.toLower

def sanitizeTopic (s : String) : String :=
  String.mk (sanitizeTopicL s.data)

/-- Modelled from the spec: the reference sanitization of spec.md §6
("sanitization lower-cases, strips non-word/non-space/non-hyphen characters,
collapses whitespace/hyphens to single underscores"), used only to compare the
source's sanitizer against the spec's description (claim C7). -/
def specSanitizeTopic (s : String) : String :=
  String.mk (collapseRuns
    ((s.data.map Char.toLower).filter
      (fun c => isWordChar c || isSpaceChar c || decide (c = '-'))))

/-- `save_content_to_file` (tools.py lines 411–461).  `mkdirs` and `writeRes`
are the outcomes of `os.makedirs` and of opening/writing the file; `ts` is the
`datetime.now().strftime("%Y%m%d_%H%M%S")` timestamp; `fs` is the file system,
a list of `(path, contents)` pairs to which a successful write appends. -/
def saveContentToFile (mkdirs writeRes : Except String Unit) (ts : String)
    (content folder topic platform : String) (fs : List (String × String)) :
    String × List (String × String) :=
  match mkdirs with
  | .error e => ("Error saving file: " ++ e, fs)
  | .ok _ =>
    let sanitized := sanitizeTopic topic
    let ext := if platform = "article" then ".md"
      else if platform = "x" then ".txt" else ".txt"
    let filename := ts ++ "_" ++ sanitized ++ ext
    let filePath := folder ++ "/" ++ filename
    match writeRes with
    | .error e => ("Error saving file: " ++ e, fs)
    | .ok _ => ("Successfully saved content to " ++ filePath, fs ++ [(filePath, content)])

/-! ### Reddit search tools (tools.py lines 6–67)

`search_subreddit_content` and `search_subreddits` call the PRAW client with
the query/limit/sort arguments; the fetched results (or the exception the
client raises) are the `Except`-valued oracle arguments.  Neither tool has a
`try`/`except`, so a client exception propagates to the caller. -/

structure Submission where
  title : String
  author : String
  score : Int
  url : String
  selftext : String
deriving DecidableEq

structure RComment where
  author : String
  score : Int
  body : String
  permalink : String
deriving DecidableEq

inductive RedditRecord where
  | post (title author : String) (score : Int) (url snippet : String)
  | comment (author : String) (score : Int) (snippet link : String)
deriving DecidableEq

def RedditRecord.isPost : RedditRecord → Bool
  | .post .. => true
  | .comment .. => false

def RedditRecord.isComment : RedditRecord → Bool
  | .post .. => false
  | .comment .. => true

def RedditRecord.score : RedditRecord → Int
  | .post _ _ s _ _ => s
  | .comment _ s _ _ => s

/-- The post dict built in the first loop of `search_subreddit_content`:
`snippet = submission.selftext[:200] if submission.selftext else ""`. -/
def postRecordOf (s : Submission) : RedditRecord :=
  .post s.title s.author s.score s.url (if s.selftext = "" then "" else pyTake 200 s.selftext)

/-- The comment dict built in the second loop of `search_subreddit_content`. -/
def commentRecordOf (c : RComment) : RedditRecord :=
  .comment c.author c.score (pyTake 200 c.body) ("https://reddit.com" ++ c.permalink)

/-- Python substring test `needle in hay`. -/
def containsSeq (needle : List Char) : List Char → Bool
  | [] => needle.isEmpty
  | c :: rest => needle.isPrefixOf (c :: rest) || containsSeq needle rest

/-- The comment filter `query.lower() in comment.body.lower()`. -/
def commentMatches (query : String) (c : RComment) : Bool :=
  containsSeq (pyLower query).data (pyLower c.body).data

/-- One insertion step of the stable descending sort. -/
def insertScoreDesc (r : RedditRecord) : List RedditRecord → List RedditRecord
  | [] => [r]
  | x :: xs => if x.score < r.score then r :: x :: xs else x :: insertScoreDesc r xs

/-- `comment_results.sort(key=lambda x: x["score"], reverse=True)`: Python's
stable sort, descending by score, modelled as a stable insertion sort. -/
def sortScoreDesc : List RedditRecord → List RedditRecord
  | [] => []
  | r :: rest => insertScoreDesc r (sortScoreDesc rest)

/-- `search_subreddit_content` (tools.py lines 6–46).  `searchRes` is the
outcome of iterating `reddit.subreddit(...).search(query, sort=sort,
limit=limit)`, `commentsRes` of `reddit.subreddit(...).comments(limit=limit)`;
an `.error` models the PRAW call raising, which this tool does not catch. -/
def searchSubredditContent (searchRes : Except String (List Submission))
    (commentsRes : Except String (List RComment)) (query : String) :
    Except String (List RedditRecord) :=
  match searchRes with
  | .error e => .error e
  | .ok subs =>
    match commentsRes with
    | .error e => .error e
    | .ok comms =>
      let results := subs.map postRecordOf
        ++ (comms.filter (commentMatches query)).map commentRecordOf
      let commentResults := results.filter RedditRecord.isComment
      let postResults := results.filter RedditRecord.isPost
      .ok (postResults ++ sortScoreDesc commentResults)

structure SubredditInfo where
  displayName : String
  title : String
  publicDescription : String
deriving DecidableEq

structure SubredditRecord where
  name : String
  title : String
  description : String
deriving DecidableEq

/-- `search_subreddits` (tools.py lines 49–67); again no `try`/`except`. -/
def searchSubreddits (searchRes : Except String (List SubredditInfo)) :
    Except String (List SubredditRecord) :=
  match searchRes with
  | .error e => .error e
  | .ok subs => .ok (subs.map (fun s => ⟨s.displayName, s.title, s.publicDescription⟩))

/-! ### The remaining tools of tools.py, which all catch internally

Prompt construction and config lookups only build the request sent to the
external service, which the oracle argument absorbs. -/

/-- `google_grounding_search` (tools.py lines 74–135): `importRes` is the
`from google import genai` import, `genResult` the grounded generate call. -/
def googleGroundingSearch (importRes : Except String Unit) (apiKey : Option String)
    (genResult : Except String String) : String :=
  match importRes with
  | .error e => "Error: google-genai library not available. Import error: " ++ e
  | .ok _ =>
    match apiKey with
    | none => "Error: GEMINI_API_KEY not found in environment variables"
    | some _ =>
      match genResult with
      | .error e => "Error performing grounded search: " ++ e
      | .ok t =>
        let result := String.mk (stripWs t.data)
        if result = "" then "No results found from grounded search"
        else "Current Information (via Google Search):\n" ++ result

/-- `research_topic_for_content` (tools.py lines 137–173): `agentRun` is the
nested `RedditAgent().chat(research_prompt)` delegation. -/
def researchTopicForContent (agentRun : Except String String)
    (topic platformFocus : String) : String :=
  match agentRun with
  | .error e => "Error during research: " ++ e
  | .ok r => "Research Results for '" ++ topic ++ "' (Platform focus: "
      ++ platformFocus ++ "):\n" ++ r

/-- `research_trending_topics` (tools.py lines 175–204). -/
def researchTrendingTopics (agentRun : Except String String) (category : String) : String :=
  match agentRun with
  | .error e => "Error during trending research: " ++ e
  | .ok r => "Trending Topics Report (Category: " ++ category ++ "):\n" ++ r

/-- `generate_platform_content` (tools.py lines 206–273): `llmRes` is the
single `llm.invoke(content_prompt)` call. -/
def generatePlatformContent (llmRes : Except String String) : String :=
  match llmRes with
  | .error e => "Error generating content: " ++ e
  | .ok c => c

/-- `generate_article` (tools.py lines 317–362). -/
def generateArticle (llmRes : Except String String) : String :=
  match llmRes with
  | .error e => "Error generating article: " ++ e
  | .ok c => c

/-- `generate_x_thread` (tools.py lines 364–409). -/
def generateXThread (llmRes : Except String String) : String :=
  match llmRes with
  | .error e => "Error generating X thread: " ++ e
  | .ok c => c

/-- `analyze_content_performance` (tools.py lines 275–315). -/
def analyzeContentPerformance (llmRes : Except String String) : String :=
  match llmRes with
  | .error e => "Error during content analysis: " ++ e
  | .ok c => c

/-! ### Messages and the research agent (agent.py)

A LangChain message is a `Msg`; the LangGraph `self.agent.invoke({"messages":
self.memory})` call — the whole reasoning/tool loop — is the oracle argument
`invokeRes`, delivering the final message list of the run (or raising).
`ToolMessage` ids and usage metadata other than `total_tokens` are omitted. -/

inductive Msg where
  | system (content : String)
  | human (content : String)
  | ai (content : String) (totalTokens : Option Nat)
  | tool (name toolCallId content : String)
deriving DecidableEq

def Msg.content : Msg → String
  | .system c => c
  | .human c => c
  | .ai c _ => c
  | .tool _ _ c => c

/-- `getattr(agent_response, "usage_metadata", None)["total_tokens"]`. -/
def Msg.totalTokens : Msg → Option Nat
  | .ai _ t => t
  | _ => none

structure ToolCallRec where
  toolName : String
  toolCallId : String
  content : String
deriving DecidableEq

/-- The `for msg in messages: if isinstance(msg, ToolMessage)` extraction loop
shared by `Agent.chat` and `RedditAgent.chat`. -/
def extractToolCalls (msgs : List Msg) : List ToolCallRec :=
  msgs.filterMap fun m =>
    match m with
    | .tool n id c => some ⟨n, id, c⟩
    | _ => none

/-- The `run_log` dict of `Agent.chat` (agent.py lines 106–112) together with
the `timestamp` field that `AgentLogger.log_run` adds; `latency` is omitted. -/
structure AgentRunRecord where
  userMessage : String
  toolCalls : List ToolCallRec
  error : Option String
  tokenUsage : Option Nat
  agentResponse : String
  timestamp : String
deriving DecidableEq

/-- `AgentLogger.log_run` (logger.py lines 13–19): sets the timestamp and
appends the record to `logs/agent_runs.jsonl`.  There is no `try`/`except`
here, so a failing file write raises to the caller: with `writable = false`
the call is an `.error`. -/
def AgentLogger.logRun (writable : Bool) (ts : String) (r : AgentRunRecord)
    (store : List AgentRunRecord) : Except String (List AgentRunRecord) :=
  if writable then .ok (store ++ [{ r with timestamp := ts }])
  else .error "log store unwritable"

structure AgentState where
  memory : List Msg
  runStore : List AgentRunRecord
deriving DecidableEq

/-- `Agent.chat` (agent.py lines 96–144).  `currentDate` is
`datetime.utcnow().isoformat()`, `ts` the timestamp `log_run` writes.  The
result is `.error` exactly when the `finally` block's `log_run` raises. -/
def Agent.chat (invokeRes : Except String (List Msg)) (writable : Bool)
    (currentDate ts : String) (message : String) (st : AgentState) :
    Except String (String × AgentState) :=
  let mem1 := st.memory ++ [Msg.system ("Today's date is " ++ currentDate), Msg.human message]
  let step : String × Option String × List ToolCallRec × Option Nat × List Msg :=
    match invokeRes with
    | .ok msgs =>
      match msgs.getLast? with
      | some last =>
        (last.content, none, extractToolCalls msgs, last.totalTokens, mem1 ++ [last])
      | none =>
        -- `messages[-1]` raises IndexError inside the try, caught by the except
        ("[ERROR] list index out of range", some "list index out of range", [], none, mem1)
    | .error e => ("[ERROR] " ++ e, some e, [], none, mem1)
  match step with
  | (resp, err, toolCalls, tok, mem2) =>
    match AgentLogger.logRun writable ts ⟨message, toolCalls, err, tok, resp, ""⟩ st.runStore with
    | .ok store2 => .ok (resp, ⟨mem2, store2⟩)
    | .error e => .error e

/-! ### The content-creator logger (content_logger.py)

Each static method constructs a fresh `ContentCreatorLogger()` whose
`session_id` is a fresh uuid prefix; `uuids` and `tss` are the streams of
uuid prefixes and timestamps, indexed by a counter that each logger
construction advances.  `_write_log` appends one entry, and catches its own
failures (console warning only), modelled by `writable = false` leaving the
store unchanged. -/

structure ContentResult where
  topic : String
  contentType : String
  tone : String
  generatedAt : String
  content : List (String × String)
  files : List (String × String)
  error : Option String
deriving DecidableEq

/-- The `run_log` dict of `ContentCreatorAgent.create_content` (lines
159–171); `latency` omitted. -/
structure ContentRunRecord where
  userMessage : String
  topic : String
  platforms : List String
  contentType : String
  duration : Option String
  tone : String
  toolCalls : List ToolCallRec
  filesSaved : List String
  tokenUsage : Nat
  success : Bool
  agentResponse : Option String
  generatedContent : Option ContentResult
  error : Option String
deriving DecidableEq

/-- The `run_log` dict of `RedditAgent.chat` (reddit_agent.py lines 114–121). -/
structure RedditRunRecord where
  userMessage : String
  toolCalls : List ToolCallRec
  error : Option String
  tokenUsage : Option Nat
  success : Bool
  agentResponse : String
deriving DecidableEq

inductive LogData where
  | contentRun (r : ContentRunRecord)
  | research (topic platformFocus : String) (resultsLength : Nat)
      (resultsPreview : String) (success : Bool)
  | errorData (errorType errMsg : String)
  | redditRun (r : RedditRunRecord)
deriving DecidableEq

/-- One entry of a `ContentCreatorLogger` store (content_logger.py lines
108–113). -/
structure LogEntry where
  timestamp : String
  sessionId : String
  logType : String
  data : LogData
deriving DecidableEq

/-- A static-method write: construct a fresh logger (`session_id :=
uuids ctr`, advancing the counter) and run `_write_log` on it
(content_logger.py lines 94–125). -/
def ContentCreatorLogger.writeLog (writable : Bool) (uuids tss : Nat → String)
    (logType : String) (d : LogData) (store : List LogEntry) (ctr : Nat) :
    List LogEntry × Nat :=
  (if writable then store ++ [⟨tss ctr, uuids ctr, logType, d⟩] else store, ctr + 1)

/-- `ContentCreatorLogger.log_content_creation` (lines 28–37). -/
def ContentCreatorLogger.logContentCreation (writable : Bool) (uuids tss : Nat → String)
    (r : ContentRunRecord) (store : List LogEntry) (ctr : Nat) : List LogEntry × Nat :=
  ContentCreatorLogger.writeLog writable uuids tss "content_creation" (.contentRun r) store ctr

/-- `ContentCreatorLogger.log_research_call` (lines 39–48). -/
def ContentCreatorLogger.logResearchCall (writable : Bool) (uuids tss : Nat → String)
    (topic platformFocus : String) (resultsLength : Nat) (resultsPreview : String)
    (success : Bool) (store : List LogEntry) (ctr : Nat) : List LogEntry × Nat :=
  ContentCreatorLogger.writeLog writable uuids tss "research"
    (.research topic platformFocus resultsLength resultsPreview success) store ctr

/-- `ContentCreatorLogger.log_error` (lines 61–70): note the fresh logger is
constructed with the DEFAULT file, so the entry goes to the default store. -/
def ContentCreatorLogger.logError (writable : Bool) (uuids tss : Nat → String)
    (errorType errMsg : String) (store : List LogEntry) (ctr : Nat) : List LogEntry × Nat :=
  ContentCreatorLogger.writeLog writable uuids tss "error" (.errorData errorType errMsg) store ctr

/-- `ContentCreatorLogger.log_reddit_run` (lines 83–92), writing to the
`reddit_agent_logs.json` store. -/
def ContentCreatorLogger.logRedditRun (writable : Bool) (uuids tss : Nat → String)
    (r : RedditRunRecord) (store : List LogEntry) (ctr : Nat) : List LogEntry × Nat :=
  ContentCreatorLogger.writeLog writable uuids tss "reddit_agent_run" (.redditRun r) store ctr

/-- Any sequence of static-method log calls, in order: each one is a fresh
logger construction followed by one `_write_log` append (claim C10). -/
def ContentCreatorLogger.staticLogCalls (uuids tss : Nat → String) :
    List (String × LogData) → List LogEntry → Nat → List LogEntry × Nat
  | [], store, ctr => (store, ctr)
  | (lt, d) :: rest, store, ctr =>
    let w := ContentCreatorLogger.writeLog true uuids tss lt d store ctr
    ContentCreatorLogger.staticLogCalls uuids tss rest w.1 w.2

/-- The entries a sequence of static-method log calls appends, starting at
counter value `ctr`. -/
def entriesOf (uuids tss : Nat → String) : List (String × LogData) → Nat → List LogEntry
  | [], _ => []
  | (lt, d) :: rest, ctr => ⟨tss ctr, uuids ctr, lt, d⟩ :: entriesOf uuids tss rest (ctr + 1)

/-- A content-creation run record entry, as opposed to research/error entries
sharing the same store. -/
def isRunRecordEntry (e : LogEntry) : Bool := e.logType == "content_creation"

/-! ### RedditAgent.chat (reddit_agent.py lines 106–156)

Identical loop structure to `Agent.chat`, but the run log carries a `success`
flag and, since the default configuration has `logging.enabled = True`, the
`finally` block hands the record to `ContentCreatorLogger.log_reddit_run`
(whose `_write_log` catches store failures, so `chat` itself never raises). -/

structure RedditAgentState where
  memory : List Msg
  redditStore : List LogEntry
  uuidCtr : Nat
deriving DecidableEq

def RedditAgent.chat (invokeRes : Except String (List Msg)) (writable : Bool)
    (uuids tss : Nat → String) (currentDate : String) (message : String)
    (st : RedditAgentState) : String × RedditAgentState :=
  let mem1 := st.memory ++ [Msg.system ("Today's date is " ++ currentDate), Msg.human message]
  let step : String × Option String × List ToolCallRec × Option Nat × Bool × List Msg :=
    match invokeRes with
    | .ok msgs =>
      match msgs.getLast? with
      | some last =>
        (last.content, none, extractToolCalls msgs, last.totalTokens, true, mem1 ++ [last])
      | none =>
        ("[ERROR] list index out of range", some "list index out of range", [], none, false, mem1)
    | .error e => ("[ERROR] " ++ e, some e, [], none, false, mem1)
  match step with
  | (resp, err, toolCalls, tok, succ, mem2) =>
    let w := ContentCreatorLogger.logRedditRun writable uuids tss
      ⟨message, toolCalls, err, tok, succ, resp⟩ st.redditStore st.uuidCtr
    (resp, ⟨mem2, w.1, w.2⟩)

/-! ### ContentCreatorAgent (content_creator_agent.py)

The default configuration (config.py lines 289–296) has `logging.enabled =
True`, `log_errors = False`, `separate_error_log = True`, `error_log_file =
"content_creator_errors.json"`; those literal values are baked into the
embedding below exactly as the guards in the source read them. -/

structure CCState where
  memory : List Msg
  /-- `logs/content_creator_logs.json`, the DEFAULT `ContentCreatorLogger` file. -/
  contentStore : List LogEntry
  /-- `logs/content_creator_errors.json`, the configured `error_log_file`. -/
  errorStore : List LogEntry
  uuidCtr : Nat
deriving DecidableEq

/-- `ContentCreatorAgent._log_error_separately` (lines 129–136).  Config makes
the guard true.  `error_logger = ContentCreatorLogger(error_log_file)`
consumes one uuid for its session id but is never used afterwards, so nothing
is appended to `errorStore`; the following `ContentCreatorLogger.log_error`
call constructs yet another logger with the DEFAULT file and appends the error
entry to the default store. -/
def ContentCreatorAgent.logErrorSeparately (writable : Bool) (uuids tss : Nat → String)
    (errorType errMsg : String) (st : CCState) : CCState :=
  let ctr1 := st.uuidCtr + 1
  let w := ContentCreatorLogger.logError writable uuids tss errorType errMsg st.contentStore ctr1
  { st with contentStore := w.1, uuidCtr := w.2 }

/-- `ContentCreatorAgent.research_topic` (lines 246–265): `research` is the
outcome of `research_topic_for_content.invoke(...)`.  Every exception it
raises is caught here and converted to the string `"Research error: ..."`;
this method never raises. -/
def ContentCreatorAgent.researchTopic (research : Except String String) (writable : Bool)
    (uuids tss : Nat → String) (topic platformFocus : String) (st : CCState) :
    String × CCState :=
  match research with
  | .ok results =>
    let w := ContentCreatorLogger.logResearchCall writable uuids tss topic platformFocus
      results.data.length (pyTake 200 results) true st.contentStore st.uuidCtr
    (results, { st with contentStore := w.1, uuidCtr := w.2 })
  | .error e =>
    let errorMsg := "Research error: " ++ e
    (errorMsg, ContentCreatorAgent.logErrorSeparately writable uuids tss "research_error" errorMsg st)

/-- The `for platform in platforms` loop of `create_content` (lines 187–220).
`genPlatformContent`, `genArticle`, `genXThread` and `save` are the
`.invoke(...)` outcomes of the four tools (which internally catch and return
error strings, so an `.error` here is an invoke-level exception).  The loop
itself performs no logging and no memory writes; the first exception aborts it
with the partial `ContentResult` accumulated so far. -/
def ContentCreatorAgent.platformLoop (genPlatformContent : String → Except String String)
    (genArticle genXThread : Except String String) (save : String → Except String String) :
    List String → ContentResult → ContentResult × Option String
  | [], fr => (fr, none)
  | p :: rest, fr =>
    let contentRes : Except String String :=
      if p = "youtube" ∨ p = "tiktok" then genPlatformContent p
      else if p = "article" then genArticle
      else if p = "x" then genXThread
      else .ok ""
    match contentRes with
    | .error e => (fr, some e)
    | .ok content =>
      if content = "" then
        ContentCreatorAgent.platformLoop genPlatformContent genArticle genXThread save rest fr
      else
        let fr1 := { fr with content := fr.content ++ [(p, content)] }
        match save p with
        | .error e => (fr1, some e)
        | .ok savePath =>
          ContentCreatorAgent.platformLoop genPlatformContent genArticle genXThread save rest
            { fr1 with files := fr1.files ++ [(p, savePath)] }

/-- `ContentCreatorAgent.create_content` (lines 138–244) under the default
configuration.  `run_log["files_saved"]` receives exactly the file paths also
recorded in `final_result["files"]`, in order, hence `files.map Prod.snd`. -/
def ContentCreatorAgent.createContent (research : Except String String)
    (genPlatformContent : String → Except String String)
    (genArticle genXThread : Except String String) (save : String → Except String String)
    (writable : Bool) (uuids tss : Nat → String) (currentDate : String)
    (topic : String) (platforms : List String) (contentType : String)
    (duration : Option String) (tone : String) (st : CCState) : ContentResult × CCState :=
  let st1 := { st with memory := st.memory ++ [Msg.system ("Today's date is " ++ currentDate)] }
  let userMessage := "Create " ++ String.intercalate ", " platforms
    ++ " content about " ++ topic
  let finalResult0 : ContentResult :=
    { topic := topic, contentType := contentType, tone := tone, generatedAt := currentDate,
      content := [], files := [], error := none }
  let rp := ContentCreatorAgent.researchTopic research writable uuids tss topic
    (String.intercalate ", " platforms) st1
  let st3 := { rp.2 with memory := rp.2.memory
    ++ [Msg.system ("Research summary for " ++ topic ++ ":\n" ++ rp.1)] }
  let lp := ContentCreatorAgent.platformLoop genPlatformContent genArticle genXThread save
    platforms finalResult0
  match lp.2 with
  | none =>
    -- success path; `finally` writes the run record since
    -- `logging.enabled and (run_log["success"] or log_errors)` holds
    let runRecord : ContentRunRecord :=
      { userMessage := userMessage, topic := topic, platforms := platforms,
        contentType := contentType, duration := duration, tone := tone,
        toolCalls := [], filesSaved := lp.1.files.map Prod.snd, tokenUsage := 0,
        success := true,
        agentResponse := some ("Generated content for "
          ++ String.intercalate ", " platforms ++ ". See files for details."),
        generatedContent := some lp.1, error := none }
    let w := ContentCreatorLogger.logContentCreation writable uuids tss runRecord
      st3.contentStore st3.uuidCtr
    (lp.1, { st3 with contentStore := w.1, uuidCtr := w.2 })
  | some e =>
    -- except path: `_log_error_separately(error_data)`; since config
    -- `log_errors = False`, the run_log error fields are NOT set, and the
    -- `finally` guard `enabled and (success or log_errors)` is false, so no
    -- content_creation record is written.
    let st4 := ContentCreatorAgent.logErrorSeparately writable uuids tss
      "content_creation_error" e st3
    ({ lp.1 with error := some e }, st4)

/-- Characters that can occur in a sanitized topic: word characters that are
not upper-case ASCII letters. -/
def sanOk (c : Char) : Bool := isWordChar c && !isUpperAscii c

/-- The file path `save_content_to_file` constructs on success:
`os.path.join(folder, f"{timestamp}_{sanitized_topic}{ext}")` with `.md` for
platform `"article"` and `.txt` otherwise. -/
def savedFilePath (ts folder topic platform : String) : String :=
  folder ++ "/" ++ (ts ++ "_" ++ sanitizeTopic topic ++
    (if platform = "article" then ".md" else ".txt"))

/-- A concrete failing `create_content` run used to exhibit the error-logging
behaviour: research succeeds, the article is generated and saved, then the
x-thread generation `.invoke` raises `"boom"`. -/
def c4Run : ContentResult × CCState :=
  ContentCreatorAgent.createContent (.ok "R") (fun _ => .ok "VID") (.ok "ART")
    (.error "boom") (fun _ => .ok "articles/f.md") true (fun n => toString n)
    (fun _ => "t") "d" "AI" ["article", "x"] "educational" none "engaging" ⟨[], [], [], 0⟩

/-- A concrete `create_content` run whose research step raises `"boom"` while
every generation and save invocation succeeds, for platforms
`["article", "x"]`. -/
def c3Run : ContentResult × CCState :=
  ContentCreatorAgent.createContent (.error "boom") (fun _ => .ok "VID") (.ok "ART")
    (.ok "THR") (fun _ => .ok "path") true (fun _ => "u") (fun _ => "t") "d" "ai"
    ["article", "x"] "educational" none "engaging" ⟨[], [], [], 0⟩

/-! ## Lemmas -/

theorem toNat_ofNat_of_valid {n : Nat} (h : n.isValidChar) : (Char.ofNat n).toNat = n := by
  rw [Char.ofNat, dif_pos h]
  rfl

theorem toLower_toNat_of_upper {c : Char} (h1 : 65 ≤ c.toNat) (h2 : c.toNat ≤ 90) :
    (Char.toLower c).toNat = c.toNat + 32 := by
  rw [Char.toLower, if_pos ⟨h1, h2⟩]
  exact toNat_ofNat_of_valid (Or.inl (by omega))

theorem toLower_eq_self {c : Char} (h : ¬(65 ≤ c.toNat ∧ c.toNat ≤ 90)) :
    Char.toLower c = c := by
  rw [Char.toLower, if_neg h]

theorem sanOk_toLower_of_word {c : Char} (h : isWordChar c = true) :
    sanOk (Char.toLower c) = true := by
  by_cases hu : 65 ≤ c.toNat ∧ c.toNat ≤ 90
  · have ht := toLower_toNat_of_upper hu.1 hu.2
    simp only [sanOk, isWordChar, isUpperAscii, ht, Bool.and_eq_true, Bool.or_eq_true,
      Bool.not_eq_true', Bool.and_eq_false_iff, decide_eq_true_eq, decide_eq_false_iff_not]
    omega
  · rw [toLower_eq_self hu]
    simp only [sanOk, isWordChar, isUpperAscii, Bool.and_eq_true, Bool.or_eq_true,
      Bool.not_eq_true', Bool.and_eq_false_iff, decide_eq_true_eq, decide_eq_false_iff_not] at h ⊢
    constructor
    · exact h
    · omega

theorem sanOk_word {c : Char} (h : sanOk c = true) : isWordChar c = true := by
  simp only [sanOk, Bool.and_eq_true] at h
  exact h.1

theorem word_not_space {c : Char} (h : isWordChar c = true) : isSpaceChar c = false := by
  simp only [isWordChar, isUpperAscii, Bool.or_eq_true, Bool.and_eq_true, decide_eq_true_eq] at h
  simp only [isSpaceChar, Bool.or_eq_false_iff, Bool.and_eq_false_iff, decide_eq_false_iff_not]
  omega

theorem word_not_hyphenOrWs {c : Char} (h : isWordChar c = true) : isHyphenOrWs c = false := by
  simp only [isWordChar, isUpperAscii, Bool.or_eq_true, Bool.and_eq_true, decide_eq_true_eq] at h
  simp only [isHyphenOrWs, isSpaceChar, Bool.or_eq_false_iff, Bool.and_eq_false_iff,
    decide_eq_false_iff_not]
  omega

theorem word_ne_space {c : Char} (h : isWordChar c = true) : c ≠ ' ' := by
  intro hc
  subst hc
  simp [isWordChar, isUpperAscii] at h

theorem sanOk_toLower_eq_self {c : Char} (h : sanOk c = true) : Char.toLower c = c := by
  simp only [sanOk, isUpperAscii, Bool.and_eq_true, Bool.not_eq_true', Bool.and_eq_false_iff,
    decide_eq_false_iff_not] at h
  apply toLower_eq_self
  omega

theorem mem_collapseRunsAux {c : Char} :
    ∀ {b : Bool} {l : List Char}, c ∈ collapseRunsAux b l →
      c = '_' ∨ (c ∈ l ∧ isHyphenOrWs c = false) := by
  intro b l
  induction l generalizing b with
  | nil => intro h; simp [collapseRunsAux] at h
  | cons x xs ih =>
    intro h
    by_cases hx : isHyphenOrWs x = true
    · by_cases hb : b = true
      · subst hb
        simp only [collapseRunsAux, hx, if_pos, if_true] at h
        rcases ih h with h1 | h2
        · exact Or.inl h1
        · exact Or.inr ⟨List.mem_cons_of_mem _ h2.1, h2.2⟩
      · replace hb : b = false := by revert hb; cases b <;> simp
        subst hb
        simp only [collapseRunsAux, hx, if_true, Bool.false_eq_true, if_false,
          List.mem_cons] at h
        rcases h with h1 | h1
        · exact Or.inl h1
        · rcases ih h1 with h2 | h2
          · exact Or.inl h2
          · exact Or.inr ⟨List.mem_cons_of_mem _ h2.1, h2.2⟩
    · replace hx : isHyphenOrWs x = false := by revert hx; cases isHyphenOrWs x <;> simp
      simp only [collapseRunsAux, hx, Bool.false_eq_true, if_false, List.mem_cons] at h
      rcases h with h1 | h1
      · subst h1; exact Or.inr ⟨List.mem_cons_self _ _, hx⟩
      · rcases ih h1 with h2 | h2
        · exact Or.inl h2
        · exact Or.inr ⟨List.mem_cons_of_mem _ h2.1, h2.2⟩

theorem mem_stripWs {c : Char} {l : List Char} (h : c ∈ stripWs l) : c ∈ l := by
  unfold stripWs at h
  rw [List.mem_reverse] at h
  have h2 := List.dropWhile_subset isSpaceChar h
  rw [List.mem_reverse] at h2
  exact List.dropWhile_subset isSpaceChar h2

theorem sanitizeTopicL_sanOk {l : List Char} : ∀ c ∈ sanitizeTopicL l, sanOk c = true := by
  intro c hc
  unfold sanitizeTopicL at hc
  simp only [List.mem_map] at hc
  obtain ⟨d, hd, rfl⟩ := hc
  rcases mem_collapseRunsAux hd with h1 | ⟨h1, hdh⟩
  · subst h1; decide
  · simp only [List.mem_map] at h1
    obtain ⟨e, he, rfl⟩ := h1
    have he1 := mem_stripWs he
    have he2 := List.of_mem_filter he1
    by_cases hsp : e = ' '
    · subst hsp; simp only [if_pos]; decide
    · rw [if_neg hsp] at hdh ⊢
      simp only [Bool.or_eq_true, decide_eq_true_eq] at he2
      rcases he2 with (hw | hs) | hh
      · exact sanOk_toLower_of_word hw
      · exfalso
        simp [isHyphenOrWs, hs] at hdh
      · exfalso
        subst hh
        simp [isHyphenOrWs] at hdh

theorem dropWhile_eq_self_of_forall {p : Char → Bool} {l : List Char}
    (h : ∀ c ∈ l, p c = false) : l.dropWhile p = l := by
  cases l with
  | nil => rfl
  | cons x xs => simp [List.dropWhile_cons, h x (List.mem_cons_self _ _)]

theorem stripWs_eq_self_of_sanOk {l : List Char} (h : ∀ c ∈ l, sanOk c = true) :
    stripWs l = l := by
  have hns : ∀ c ∈ l, isSpaceChar c = false := fun c hc => word_not_space (sanOk_word (h c hc))
  unfold stripWs
  rw [dropWhile_eq_self_of_forall hns]
  rw [dropWhile_eq_self_of_forall (fun c hc => hns c (List.mem_reverse.mp hc))]
  exact List.reverse_reverse l

theorem map_id_of_forall {f : Char → Char} {l : List Char} (h : ∀ c ∈ l, f c = c) :
    l.map f = l := by
  induction l with
  | nil => rfl
  | cons x xs ih =>
    simp only [List.map_cons, h x (List.mem_cons_self _ _), List.cons.injEq, true_and]
    exact ih (fun c hc => h c (List.mem_cons_of_mem _ hc))

theorem collapseRunsAux_eq_self {l : List Char} (h : ∀ c ∈ l, isHyphenOrWs c = false) :
    ∀ b, collapseRunsAux b l = l := by
  induction l with
  | nil => intro b; rfl
  | cons x xs ih =>
    intro b
    simp only [collapseRunsAux, h x (List.mem_cons_self _ _), Bool.false_eq_true, if_false,
      List.cons.injEq, true_and]
    exact ih (fun c hc => h c (List.mem_cons_of_mem _ hc)) false

theorem sanitizeTopicL_eq_self_of_sanOk {l : List Char} (h : ∀ c ∈ l, sanOk c = true) :
    sanitizeTopicL l = l := by
  simp only [sanitizeTopicL]
  rw [List.filter_eq_self.mpr]
  · rw [stripWs_eq_self_of_sanOk h]
    rw [map_id_of_forall (fun c hc => if_neg (word_ne_space (sanOk_word (h c hc))))]
    unfold collapseRuns
    rw [collapseRunsAux_eq_self (fun c hc => word_not_hyphenOrWs (sanOk_word (h c hc))) false]
    exact map_id_of_forall (fun c hc => sanOk_toLower_eq_self (h c hc))
  · intro c hc
    simp only [Bool.or_eq_true, decide_eq_true_eq]
    exact Or.inl (Or.inl (sanOk_word (h c hc)))

theorem sanitizeTopicL_idem (l : List Char) :
    sanitizeTopicL (sanitizeTopicL l) = sanitizeTopicL l :=
  sanitizeTopicL_eq_self_of_sanOk sanitizeTopicL_sanOk
theorem mem_insertScoreDesc {a r : RedditRecord} :
    ∀ {l : List RedditRecord}, a ∈ insertScoreDesc r l ↔ a = r ∨ a ∈ l := by
  intro l
  induction l with
  | nil => simp [insertScoreDesc]
  | cons x xs ih =>
    simp only [insertScoreDesc]
    by_cases h : x.score < r.score
    · simp [h, List.mem_cons]
    · simp only [h, if_false, List.mem_cons, ih]
      tauto

theorem pairwise_insertScoreDesc {r : RedditRecord} :
    ∀ {l : List RedditRecord},
      l.Pairwise (fun a b => RedditRecord.score b ≤ RedditRecord.score a) →
      (insertScoreDesc r l).Pairwise (fun a b => RedditRecord.score b ≤ RedditRecord.score a) := by
  intro l
  induction l with
  | nil => intro _; simp [insertScoreDesc]
  | cons x xs ih =>
    intro h
    rw [List.pairwise_cons] at h
    simp only [insertScoreDesc]
    by_cases hx : x.score < r.score
    · rw [if_pos hx]
      rw [List.pairwise_cons]
      constructor
      · intro b hb
        rcases List.mem_cons.mp hb with hb | hb
        · subst hb; omega
        · have := h.1 b hb
          omega
      · exact List.pairwise_cons.mpr h
    · rw [if_neg hx]
      rw [List.pairwise_cons]
      constructor
      · intro b hb
        rcases mem_insertScoreDesc.mp hb with hb | hb
        · subst hb; omega
        · exact h.1 b hb
      · exact ih h.2

theorem pairwise_sortScoreDesc :
    ∀ l : List RedditRecord,
      (sortScoreDesc l).Pairwise (fun a b => RedditRecord.score b ≤ RedditRecord.score a)
  | [] => List.Pairwise.nil
  | _ :: rest => pairwise_insertScoreDesc (pairwise_sortScoreDesc rest)

theorem mem_sortScoreDesc {a : RedditRecord} :
    ∀ {l : List RedditRecord}, a ∈ sortScoreDesc l ↔ a ∈ l := by
  intro l
  induction l with
  | nil => simp [sortScoreDesc]
  | cons x xs ih => simp [sortScoreDesc, mem_insertScoreDesc, ih]

/-- C9: in every result list returned by `search_subreddit_content`, all
records of type "post" precede all records of type "comment", and the comment
records appear sorted by their score field in descending order. -/
theorem search_results_posts_before_sorted_comments {sr : Except String (List Submission)} {cr : Except String (List RComment)}
    {q : String} {l : List RedditRecord}
    (h : searchSubredditContent sr cr q = .ok l) :
    ∃ ps cs, l = ps ++ cs ∧ (∀ r ∈ ps, r.isPost = true) ∧ (∀ r ∈ cs, r.isComment = true) ∧
      cs.Pairwise (fun a b => RedditRecord.score b ≤ RedditRecord.score a) := by
  cases sr with
  | error e => simp [searchSubredditContent] at h
  | ok subs =>
    cases cr with
    | error e => simp [searchSubredditContent] at h
    | ok comms =>
      simp only [searchSubredditContent, Except.ok.injEq] at h
      refine ⟨_, _, h.symm, ?_, ?_, pairwise_sortScoreDesc _⟩
      · intro r hr
        exact List.of_mem_filter hr
      · intro r hr
        exact List.of_mem_filter (mem_sortScoreDesc.mp hr)

/-- Witness for C9: a concrete search over one post and two matching comments
(scores 1 and 7); the result lists the post first, then the comments with
scores 7, 1. -/
theorem search_results_order_witness :
    ∃ ps cs,
      [RedditRecord.post "T" "au" 5 "u" "body",
       RedditRecord.comment "c2" 7 "yes" "https://reddit.com/p2",
       RedditRecord.comment "c1" 1 "yes" "https://reddit.com/p1"] = ps ++ cs ∧
      (∀ r ∈ ps, r.isPost = true) ∧ (∀ r ∈ cs, r.isComment = true) ∧
      cs.Pairwise (fun a b => RedditRecord.score b ≤ RedditRecord.score a) :=
  @search_results_posts_before_sorted_comments (.ok [⟨"T", "au", 5, "u", "body"⟩])
    (.ok [⟨"c1", 1, "yes", "/p1"⟩, ⟨"c2", 7, "yes", "/p2"⟩]) "yes"
    [RedditRecord.post "T" "au" 5 "u" "body",
     RedditRecord.comment "c2" 7 "yes" "https://reddit.com/p2",
     RedditRecord.comment "c1" 1 "yes" "https://reddit.com/p1"] (by rfl)

theorem staticLogCalls_eq (uuids tss : Nat → String) :
    ∀ (reqs : List (String × LogData)) (store : List LogEntry) (ctr : Nat),
      ContentCreatorLogger.staticLogCalls uuids tss reqs store ctr =
        (store ++ entriesOf uuids tss reqs ctr, ctr + reqs.length) := by
  intro reqs
  induction reqs with
  | nil => intro store ctr; simp [ContentCreatorLogger.staticLogCalls, entriesOf]
  | cons r rest ih =>
    intro store ctr
    obtain ⟨lt, d⟩ := r
    simp only [ContentCreatorLogger.staticLogCalls, ContentCreatorLogger.writeLog, if_pos,
      entriesOf, ih, List.append_assoc, List.singleton_append, List.length_cons,
      Prod.mk.injEq]
    exact ⟨trivial, by omega⟩

theorem entriesOf_sessionIds (uuids tss : Nat → String) :
    ∀ (reqs : List (String × LogData)) (ctr : Nat),
      (entriesOf uuids tss reqs ctr).map LogEntry.sessionId =
        (List.range' ctr reqs.length).map uuids := by
  intro reqs
  induction reqs with
  | nil => intro ctr; rfl
  | cons r rest ih =>
    intro ctr
    obtain ⟨lt, d⟩ := r
    simp only [entriesOf, List.map_cons, List.length_cons, List.range'_succ, ih]

theorem nodup_filter_beq_length_le_one {l : List String} (h : l.Nodup) (s : String) :
    (l.filter (fun x => x == s)).length ≤ 1 := by
  induction l with
  | nil => simp
  | cons x xs ih =>
    rw [List.nodup_cons] at h
    by_cases hx : (x == s) = true
    · have hxs : x = s := by simpa using hx
      subst hxs
      have hnil : xs.filter (fun y => y == x) = [] := by
        rw [List.filter_eq_nil_iff]
        intro a ha hax
        have : a = x := by simpa using hax
        subst this
        exact h.1 ha
      simp only [List.filter_cons, hx, if_true, hnil]
      simp
    · simp only [List.filter_cons, hx, Bool.false_eq_true, if_false]
      exact ih h.2

/-- C10: every record written through the static logging methods carries the
session identifier of a logger freshly constructed inside that call — the next
uuid of the stream, not the agent's own logger's id `uuids k` (constructed
earlier, `k < ctr`).  When the uuid stream is injective the appended entries
have pairwise distinct session identifiers, so filtering by one session
identifier selects at most the one entry of one write. -/
theorem static_log_writes_use_fresh_session_ids (uuids tss : Nat → String) (reqs : List (String × LogData))
    (store : List LogEntry) (ctr k : Nat) (hinj : Function.Injective uuids) (hk : k < ctr) :
    (ContentCreatorLogger.staticLogCalls uuids tss reqs store ctr).1
      = store ++ entriesOf uuids tss reqs ctr ∧
    ((entriesOf uuids tss reqs ctr).map LogEntry.sessionId).Nodup ∧
    (∀ e ∈ entriesOf uuids tss reqs ctr, e.sessionId ≠ uuids k) ∧
    (∀ s, ((entriesOf uuids tss reqs ctr).filter (fun e => e.sessionId == s)).length ≤ 1) := by
  have hsid := entriesOf_sessionIds uuids tss reqs ctr
  have hnd : ((entriesOf uuids tss reqs ctr).map LogEntry.sessionId).Nodup := by
    rw [hsid]
    exact List.Nodup.map hinj (List.nodup_range' _ _)
  refine ⟨by rw [staticLogCalls_eq], hnd, ?_, ?_⟩
  · intro e he hbad
    have hmem : e.sessionId ∈ (entriesOf uuids tss reqs ctr).map LogEntry.sessionId :=
      List.mem_map_of_mem _ he
    rw [hsid] at hmem
    rw [List.mem_map] at hmem
    obtain ⟨i, hi, hei⟩ := hmem
    rw [List.mem_range'_1] at hi
    have : i = k := hinj (by rw [hei, hbad])
    omega
  · intro s
    have h1 : ((entriesOf uuids tss reqs ctr).filter (fun e => e.sessionId == s)).length
        = (((entriesOf uuids tss reqs ctr).map LogEntry.sessionId).filter
            (fun x => x == s)).length := by
      rw [List.filter_map, List.length_map]
      rfl
    rw [h1]
    exact nodup_filter_beq_length_le_one hnd s

/-- Witness for C10 at a concrete injective uuid stream, two static writes
starting at counter 1, with the agent's logger holding uuid 0. -/
theorem static_log_writes_fresh_witness :
    (ContentCreatorLogger.staticLogCalls (fun i => String.mk (List.replicate i 'a'))
        (fun _ => "t") [("error", .errorData "ty" "msg"), ("research", .errorData "x" "y")]
        [] 1).1
      = [] ++ entriesOf (fun i => String.mk (List.replicate i 'a')) (fun _ => "t")
          [("error", .errorData "ty" "msg"), ("research", .errorData "x" "y")] 1 ∧
    ((entriesOf (fun i => String.mk (List.replicate i 'a')) (fun _ => "t")
        [("error", .errorData "ty" "msg"), ("research", .errorData "x" "y")] 1).map
      LogEntry.sessionId).Nodup ∧
    (∀ e ∈ entriesOf (fun i => String.mk (List.replicate i 'a')) (fun _ => "t")
        [("error", .errorData "ty" "msg"), ("research", .errorData "x" "y")] 1,
      e.sessionId ≠ (fun i => String.mk (List.replicate i 'a')) 0) ∧
    (∀ s, ((entriesOf (fun i => String.mk (List.replicate i 'a')) (fun _ => "t")
        [("error", .errorData "ty" "msg"), ("research", .errorData "x" "y")] 1).filter
      (fun e => e.sessionId == s)).length ≤ 1) :=
  static_log_writes_use_fresh_session_ids (fun i => String.mk (List.replicate i 'a')) (fun _ => "t")
    [("error", .errorData "ty" "msg"), ("research", .errorData "x" "y")] [] 1 0
    (fun a b h => by
      have := congrArg (fun s => s.data.length) h
      simpa using this)
    (by decide)

theorem platformLoop_all_ok (g sv : String → String) (a x : String) :
    ∀ (ps : List String) (fr : ContentResult),
      (ContentCreatorAgent.platformLoop (fun p => .ok (g p)) (.ok a) (.ok x)
        (fun p => .ok (sv p)) ps fr).2 = none := by
  intro ps
  induction ps with
  | nil => intro fr; rfl
  | cons p rest ih =>
    intro fr
    simp only [ContentCreatorAgent.platformLoop]
    by_cases h1 : p = "youtube" ∨ p = "tiktok"
    · rw [if_pos h1]
      by_cases h2 : g p = "" <;> simp [h2, ih]
    · rw [if_neg h1]
      by_cases h2 : p = "article"
      · rw [if_pos h2]
        by_cases h3 : a = ""
        · subst h3; simp [ih]
        · simp [h3, ih]
      · rw [if_neg h2]
        by_cases h3 : p = "x"
        · rw [if_pos h3]
          by_cases h4 : x = ""
          · subst h4; simp [ih]
          · simp [h4, ih]
        · rw [if_neg h3]
          simp [ih]

-- C1 amended, part (a): Agent.chat appends exactly one run record

theorem agentChat_appends_one_record (inv : Except String (List Msg)) (cd ts m : String) (st : AgentState) :
    ∃ s mem2 r, Agent.chat inv true cd ts m st = .ok (s, ⟨mem2, st.runStore ++ [r]⟩) := by
  cases inv with
  | error e => exact ⟨_, _, _, rfl⟩
  | ok msgs =>
    cases h : msgs.getLast? with
    | none =>
      simp only [Agent.chat, h, AgentLogger.logRun, if_true]
      exact ⟨_, _, _, rfl⟩
    | some last =>
      simp only [Agent.chat, h, AgentLogger.logRun, if_true]
      exact ⟨_, _, _, rfl⟩

-- C1 amended, part (b): RedditAgent.chat appends exactly one entry

theorem redditChat_appends_one_entry (inv : Except String (List Msg)) (uuids tss : Nat → String) (cd m : String)
    (st : RedditAgentState) :
    ∃ en, (RedditAgent.chat inv true uuids tss cd m st).2.redditStore
        = st.redditStore ++ [en] ∧ en.logType = "reddit_agent_run" := by
  cases inv with
  | error e => exact ⟨_, rfl, rfl⟩
  | ok msgs =>
    cases h : msgs.getLast? with
    | none =>
      simp only [RedditAgent.chat, h, ContentCreatorLogger.logRedditRun,
        ContentCreatorLogger.writeLog, if_true]
      exact ⟨_, rfl, rfl⟩
    | some last =>
      simp only [RedditAgent.chat, h, ContentCreatorLogger.logRedditRun,
        ContentCreatorLogger.writeLog, if_true]
      exact ⟨_, rfl, rfl⟩

-- C1 amended, part (c): successful create_content appends exactly one
-- content_creation record

theorem createContent_success_appends_one_record (r0 : String) (g sv : String → String) (a x : String)
    (uuids tss : Nat → String) (cd topic ct tone : String) (dur : Option String)
    (platforms : List String) (st : CCState) :
    (((ContentCreatorAgent.createContent (.ok r0) (fun p => .ok (g p)) (.ok a) (.ok x)
        (fun p => .ok (sv p)) true uuids tss cd topic platforms ct dur tone
        st).2.contentStore).filter isRunRecordEntry).length
      = ((st.contentStore).filter isRunRecordEntry).length + 1 := by
  simp only [ContentCreatorAgent.createContent, ContentCreatorAgent.researchTopic,
    ContentCreatorLogger.logResearchCall, ContentCreatorLogger.logContentCreation,
    ContentCreatorLogger.writeLog, if_true]
  rw [platformLoop_all_ok]
  simp [List.filter_append, isRunRecordEntry]
/-- C1 (amended): `Agent.chat` and `RedditAgent.chat` append exactly one run
record per invocation in their `finally` blocks, on the success path and on
the failure path alike; `ContentCreatorAgent.create_content` appends exactly
one content_creation record on success, but under the default configuration
(`log_errors = False`) a failing run appends none (see the counterexample). -/
theorem runRecord_write_policy :
    (∀ inv cd ts m st, ∃ s mem2 r, Agent.chat inv true cd ts m st
        = .ok (s, ⟨mem2, st.runStore ++ [r]⟩)) ∧
    (∀ inv uuids tss cd m st, ∃ en,
        (RedditAgent.chat inv true uuids tss cd m st).2.redditStore
          = st.redditStore ++ [en] ∧ en.logType = "reddit_agent_run") ∧
    (∀ (r0 : String) (g sv : String → String) (a x : String) (uuids tss : Nat → String)
        (cd topic ct tone : String) (dur : Option String) (platforms : List String)
        (st : CCState),
        (((ContentCreatorAgent.createContent (.ok r0) (fun p => .ok (g p)) (.ok a) (.ok x)
            (fun p => .ok (sv p)) true uuids tss cd topic platforms ct dur tone
            st).2.contentStore).filter isRunRecordEntry).length
          = ((st.contentStore).filter isRunRecordEntry).length + 1) :=
  ⟨agentChat_appends_one_record, redditChat_appends_one_entry,
   fun r0 g sv a x uuids tss cd topic ct tone dur platforms st =>
     createContent_success_appends_one_record r0 g sv a x uuids tss cd topic ct tone dur
       platforms st⟩

/-- Counterexample to C1 as stated: `c4Run` is a top-level `create_content`
invocation that raises (its x-thread generation fails), yet under the default
configuration zero content_creation run records are appended — the `finally`
write is guarded by `run_log["success"] or log_errors` and config.py sets
`log_errors = False`. -/
theorem failed_createContent_writes_no_run_record :
    c4Run.1.error = some "boom" ∧ c4Run.2.contentStore.filter isRunRecordEntry = [] := by
  decide

/-- C2 (amended): for every behaviour of the reasoning backend and the tools,
`Agent.chat` catches the exception and returns a string — the terminal answer
or an `"[ERROR] "`-prefixed string — provided the run-log store write
succeeds.  (When the store is unwritable, `AgentLogger.log_run` raises and
`chat` propagates it; see the counterexample.) -/
theorem chat_returns_string_when_store_writable :
    (∀ inv cd ts m st, ∃ s st2, Agent.chat inv true cd ts m st = .ok (s, st2)) ∧
    (∀ e cd ts m st, ∃ st2,
        Agent.chat (Except.error e) true cd ts m st = .ok ("[ERROR] " ++ e, st2)) := by
  constructor
  · intro inv cd ts m st
    obtain ⟨s, mem2, r, h⟩ := agentChat_appends_one_record inv cd ts m st
    exact ⟨s, _, h⟩
  · intro e cd ts m st
    exact ⟨_, rfl⟩

/-- Counterexample to C2 as stated: with an unwritable run-log store,
`AgentLogger.log_run` raises inside `Agent.chat`'s `finally` block and the
exception propagates past the wrapper instead of being downgraded to a
console warning — `logger.py` has no `try`/`except` around the write. -/
theorem chat_raises_on_unwritable_store :
    Agent.chat (.ok [Msg.ai "hi" none]) false "d" "t" "m" ⟨[], []⟩
      = .error "log store unwritable" := rfl

theorem agentChat_memory_shape (inv : Except String (List Msg)) (cd ts m : String) (st : AgentState) :
    ∃ s store2 tail, Agent.chat inv true cd ts m st
        = .ok (s, ⟨st.memory ++ [Msg.system ("Today's date is " ++ cd), Msg.human m] ++ tail,
            store2⟩)
      ∧ tail.length ≤ 1
      ∧ (∀ e, inv = Except.error e → tail = [])
      ∧ (∀ msgs last, inv = Except.ok msgs → msgs.getLast? = some last → tail = [last]) := by
  cases inv with
  | error e =>
    have h3 : ∀ e2, (Except.error e : Except String (List Msg)) = Except.error e2 →
        ([] : List Msg) = [] := by
      intro _ _
      rfl
    have h4 : ∀ (msgs2 : List Msg) (last : Msg),
        (Except.error e : Except String (List Msg)) = Except.ok msgs2 →
        msgs2.getLast? = some last → ([] : List Msg) = [last] := by
      intro msgs2 last heq _
      cases heq
    exact ⟨"[ERROR] " ++ e,
      st.runStore ++ [⟨m, [], some e, none, "[ERROR] " ++ e, ts⟩], [],
      by simp [Agent.chat, AgentLogger.logRun], by simp, h3, h4⟩
  | ok msgs =>
    have h3 : ∀ (tail : List Msg) e2, (Except.ok msgs : Except String (List Msg))
        = Except.error e2 → tail = [] := by
      intro _ _ heq
      cases heq
    cases h : msgs.getLast? with
    | none =>
      have h4 : ∀ (msgs2 : List Msg) (last : Msg),
          (Except.ok msgs : Except String (List Msg)) = Except.ok msgs2 →
          msgs2.getLast? = some last → ([] : List Msg) = [last] := by
        intro msgs2 last heq hl
        cases heq
        rw [h] at hl
        cases hl
      exact ⟨"[ERROR] list index out of range",
        st.runStore ++ [⟨m, [], some "list index out of range", none,
          "[ERROR] list index out of range", ts⟩], [],
        by simp [Agent.chat, h, AgentLogger.logRun], by simp, h3 [], h4⟩
    | some last =>
      have h4 : ∀ (msgs2 : List Msg) (l : Msg),
          (Except.ok msgs : Except String (List Msg)) = Except.ok msgs2 →
          msgs2.getLast? = some l → ([last] : List Msg) = [l] := by
        intro msgs2 l heq hl
        cases heq
        rw [h] at hl
        cases hl
        rfl
      exact ⟨last.content,
        st.runStore ++ [⟨m, extractToolCalls msgs, none, last.totalTokens, last.content, ts⟩],
        [last],
        by simp [Agent.chat, h, AgentLogger.logRun], by simp, h3 [last], h4⟩

theorem redditChat_memory_shape (inv : Except String (List Msg)) (uuids tss : Nat → String) (cd m : String)
    (st : RedditAgentState) :
    ∃ resp st2 tail, RedditAgent.chat inv true uuids tss cd m st = (resp, st2)
      ∧ st2.memory = st.memory ++ [Msg.system ("Today's date is " ++ cd), Msg.human m] ++ tail
      ∧ tail.length ≤ 1
      ∧ (∀ e, inv = Except.error e → tail = [])
      ∧ (∀ msgs last, inv = Except.ok msgs → msgs.getLast? = some last → tail = [last]) := by
  cases inv with
  | error e =>
    have h3 : ∀ e2, (Except.error e : Except String (List Msg)) = Except.error e2 →
        ([] : List Msg) = [] := by
      intro _ _
      rfl
    have h4 : ∀ (msgs2 : List Msg) (last : Msg),
        (Except.error e : Except String (List Msg)) = Except.ok msgs2 →
        msgs2.getLast? = some last → ([] : List Msg) = [last] := by
      intro msgs2 last heq _
      cases heq
    refine ⟨"[ERROR] " ++ e,
      ⟨st.memory ++ [Msg.system ("Today's date is " ++ cd), Msg.human m],
       st.redditStore ++ [⟨tss st.uuidCtr, uuids st.uuidCtr, "reddit_agent_run",
         .redditRun ⟨m, [], some e, none, false, "[ERROR] " ++ e⟩⟩], st.uuidCtr + 1⟩, [],
      ?_, by simp, by simp, h3, h4⟩
    simp [RedditAgent.chat, ContentCreatorLogger.logRedditRun, ContentCreatorLogger.writeLog]
  | ok msgs =>
    have h3 : ∀ (tail : List Msg) e2, (Except.ok msgs : Except String (List Msg))
        = Except.error e2 → tail = [] := by
      intro _ _ heq
      cases heq
    cases h : msgs.getLast? with
    | none =>
      have h4 : ∀ (msgs2 : List Msg) (last : Msg),
          (Except.ok msgs : Except String (List Msg)) = Except.ok msgs2 →
          msgs2.getLast? = some last → ([] : List Msg) = [last] := by
        intro msgs2 last heq hl
        cases heq
        rw [h] at hl
        cases hl
      refine ⟨"[ERROR] list index out of range",
        ⟨st.memory ++ [Msg.system ("Today's date is " ++ cd), Msg.human m],
         st.redditStore ++ [⟨tss st.uuidCtr, uuids st.uuidCtr, "reddit_agent_run",
           .redditRun ⟨m, [], some "list index out of range", none, false,
             "[ERROR] list index out of range"⟩⟩], st.uuidCtr + 1⟩, [],
        ?_, by simp, by simp, h3 [], h4⟩
      simp [RedditAgent.chat, h, ContentCreatorLogger.logRedditRun,
        ContentCreatorLogger.writeLog]
    | some last =>
      have h4 : ∀ (msgs2 : List Msg) (l : Msg),
          (Except.ok msgs : Except String (List Msg)) = Except.ok msgs2 →
          msgs2.getLast? = some l → ([last] : List Msg) = [l] := by
        intro msgs2 l heq hl
        cases heq
        rw [h] at hl
        cases hl
        rfl
      refine ⟨last.content,
        ⟨st.memory ++ [Msg.system ("Today's date is " ++ cd), Msg.human m] ++ [last],
         st.redditStore ++ [⟨tss st.uuidCtr, uuids st.uuidCtr, "reddit_agent_run",
           .redditRun ⟨m, extractToolCalls msgs, none, last.totalTokens, true,
             last.content⟩⟩], st.uuidCtr + 1⟩, [last],
        ?_, rfl, by simp, h3 [last], h4⟩
      simp [RedditAgent.chat, h, ContentCreatorLogger.logRedditRun,
        ContentCreatorLogger.writeLog]

/-- C5 (amended): each `chat` call mutates memory only by appending — the old
memory is a prefix of the new one — and appends exactly a current-date system
turn, the user turn, and (when the run returns a non-empty message list) the
run's final message; the tool-result turns produced during the run are NOT
appended to memory, and on a failed run no answer turn is appended. -/
theorem memory_append_policy :
    (∀ inv cd ts m st, ∃ s store2 tail, Agent.chat inv true cd ts m st
        = .ok (s, ⟨st.memory ++ [Msg.system ("Today's date is " ++ cd), Msg.human m] ++ tail,
            store2⟩)
      ∧ tail.length ≤ 1
      ∧ (∀ e, inv = Except.error e → tail = [])
      ∧ (∀ msgs last, inv = Except.ok msgs → msgs.getLast? = some last → tail = [last])) ∧
    (∀ inv uuids tss cd m st, ∃ resp st2 tail,
        RedditAgent.chat inv true uuids tss cd m st = (resp, st2)
      ∧ st2.memory = st.memory ++ [Msg.system ("Today's date is " ++ cd), Msg.human m] ++ tail
      ∧ tail.length ≤ 1
      ∧ (∀ e, inv = Except.error e → tail = [])
      ∧ (∀ msgs last, inv = Except.ok msgs → msgs.getLast? = some last → tail = [last])) :=
  ⟨agentChat_memory_shape, redditChat_memory_shape⟩

/-- Counterexample to C5 as stated: a run that produced a tool-result turn
appends to memory only the date system turn, the user turn and the final
answer — the tool-result turn is not persisted (and an extra date system turn,
which the claim does not mention, is). -/
theorem tool_result_turns_not_persisted :
    (Agent.chat (.ok [Msg.tool "search" "id1" "out", Msg.ai "ans" none]) true "d" "t" "m"
        ⟨[], []⟩ =
      .ok ("ans", ⟨[Msg.system "Today's date is d", Msg.human "m", Msg.ai "ans" none],
        [⟨"m", [⟨"search", "id1", "out"⟩], none, none, "ans", "t"⟩]⟩)) ∧
    Msg.tool "search" "id1" "out" ∉
      ([Msg.system "Today's date is d", Msg.human "m", Msg.ai "ans" none] : List Msg) :=
  ⟨rfl, by decide⟩

/-- C3 (amended): when the research invocation raises, the exception is caught
inside `research_topic`, which returns the string `"Research error: <e>"`;
`create_content` then proceeds to per-platform generation using that string as
the research summary (it is appended to memory as a system turn), and when
generation and saving succeed the returned ContentResult has its `error` field
unset and populated `content`/`files` mappings. -/
theorem research_error_handled_inside_research_topic (e : String) (genV : String → Except String String) (a th : String)
    (sv : String → String) (uuids tss : Nat → String) (cd topic ct tone : String)
    (dur : Option String) (st : CCState) (ha : a ≠ "") (hth : th ≠ "") :
    ∃ st2, ContentCreatorAgent.createContent (.error e) genV (.ok a) (.ok th)
        (fun p => .ok (sv p)) true uuids tss cd topic ["article", "x"] ct dur tone st
      = (⟨topic, ct, tone, cd, [("article", a), ("x", th)],
          [("article", sv "article"), ("x", sv "x")], none⟩, st2) ∧
      Msg.system ("Research summary for " ++ topic ++ ":\n" ++ ("Research error: " ++ e))
        ∈ st2.memory := by
  have hloop : ContentCreatorAgent.platformLoop genV (.ok a) (.ok th) (fun p => .ok (sv p))
      ["article", "x"]
      ⟨topic, ct, tone, cd, [], [], none⟩
      = (⟨topic, ct, tone, cd, [("article", a), ("x", th)],
          [("article", sv "article"), ("x", sv "x")], none⟩, none) := by
    simp [ContentCreatorAgent.platformLoop, ha, hth]
  refine ⟨(ContentCreatorAgent.createContent (.error e) genV (.ok a) (.ok th)
      (fun p => .ok (sv p)) true uuids tss cd topic ["article", "x"] ct dur tone st).2,
    ?_, ?_⟩
  · refine Prod.ext ?_ rfl
    simp only [ContentCreatorAgent.createContent, ContentCreatorAgent.researchTopic,
      ContentCreatorAgent.logErrorSeparately, ContentCreatorLogger.logError,
      ContentCreatorLogger.writeLog, if_true]
    rw [hloop]
  · simp only [ContentCreatorAgent.createContent, ContentCreatorAgent.researchTopic,
      ContentCreatorAgent.logErrorSeparately, ContentCreatorLogger.logError,
      ContentCreatorLogger.writeLog, if_true]
    rw [hloop]
    simp

/-- Witness for C3 at concrete inputs: research raises `"boom"`, article and
x-thread generation return `"ART"`/`"THR"`, saving returns `"path"`. -/
theorem research_error_handled_inside_research_topic_witness :
    ∃ st2, ContentCreatorAgent.createContent (.error "boom") (fun _ => .ok "VID")
        (.ok "ART") (.ok "THR") (fun p => .ok ((fun _ => "path") p)) true (fun _ => "u")
        (fun _ => "t") "d" "ai" ["article", "x"] "educational" none "engaging" ⟨[], [], [], 0⟩
      = (⟨"ai", "educational", "engaging", "d", [("article", "ART"), ("x", "THR")],
          [("article", (fun _ => "path") "article"), ("x", (fun _ => "path") "x")], none⟩, st2) ∧
      Msg.system ("Research summary for " ++ "ai" ++ ":\n" ++ ("Research error: " ++ "boom"))
        ∈ st2.memory :=
  research_error_handled_inside_research_topic "boom" (fun _ => .ok "VID") "ART" "THR"
    (fun _ => "path") (fun _ => "u") (fun _ => "t") "d" "ai" "educational" "engaging" none
    ⟨[], [], [], 0⟩ (by decide) (by decide)

/-- Counterexample to C3 as stated: `c3Run` requests `["article", "x"]` with a
research step that raises, yet the returned ContentResult has `error = none`
and non-empty `content`/`files` mappings, because `research_topic` converts
the exception into an error string and the pipeline continues. -/
theorem research_error_not_surfaced_in_result :
    c3Run.1.error = none ∧ c3Run.1.content = [("article", "ART"), ("x", "THR")] ∧
      c3Run.1.files = [("article", "path"), ("x", "path")] := by
  decide

/-- C4 (code bug): in `c4Run` — a pipeline failure under the default
configuration — the exception is caught once at the outer level and reflected
in the ContentResult's `error` field, and the partial article content/file
entries are preserved; but the error record is appended to the DEFAULT store
(`content_creator_logs.json`, via `ContentCreatorLogger.log_error`'s freshly
constructed default logger) while the configured separate error store stays
empty, and no run record with failure fields is written (`log_errors = False`).
The `error_logger = ContentCreatorLogger(error_log_file)` instance built by
`_log_error_separately` is never used — a slip. -/
theorem error_record_misrouted_to_default_store :
    c4Run.1.error = some "boom" ∧
    c4Run.1.content = [("article", "ART")] ∧
    c4Run.1.files = [("article", "articles/f.md")] ∧
    c4Run.2.errorStore = [] ∧
    c4Run.2.contentStore.map LogEntry.logType = ["research", "error"] := by
  decide

/-- C6 (amended): the grounded-search, research, generation, analysis and
save tools catch internal failures and return descriptive error strings; but
the two subreddit discussion-search tools contain no exception handling and
propagate the client's exception to the caller. -/
theorem tool_error_string_policy :
    (∀ key e, googleGroundingSearch (.ok ()) (some key) (.error e)
        = "Error performing grounded search: " ++ e) ∧
    (∀ e ak gr, googleGroundingSearch (.error e) ak gr
        = "Error: google-genai library not available. Import error: " ++ e) ∧
    (∀ gr, googleGroundingSearch (.ok ()) none gr
        = "Error: GEMINI_API_KEY not found in environment variables") ∧
    (∀ e t pf, researchTopicForContent (.error e) t pf = "Error during research: " ++ e) ∧
    (∀ e c, researchTrendingTopics (.error e) c = "Error during trending research: " ++ e) ∧
    (∀ e, generatePlatformContent (.error e) = "Error generating content: " ++ e) ∧
    (∀ e, generateArticle (.error e) = "Error generating article: " ++ e) ∧
    (∀ e, generateXThread (.error e) = "Error generating X thread: " ++ e) ∧
    (∀ e, analyzeContentPerformance (.error e) = "Error during content analysis: " ++ e) ∧
    (∀ e wr ts c f t p fs, saveContentToFile (.error e) wr ts c f t p fs
        = ("Error saving file: " ++ e, fs)) ∧
    (∀ e cr q, searchSubredditContent (.error e) cr q = .error e) ∧
    (∀ e subs q, searchSubredditContent (.ok subs) (.error e) q = .error e) ∧
    (∀ e, searchSubreddits (.error e) = .error e) := by
  refine ⟨?_, ?_, ?_, ?_, ?_, ?_, ?_, ?_, ?_, ?_, ?_, ?_, ?_⟩ <;> intros <;> rfl

/-- Counterexample to C6 as stated: an upstream PRAW failure propagates out of
the subreddit discussion-search tools as an exception rather than being
returned as an error string — the two tools have no `try`/`except`. -/
theorem subreddit_tools_propagate_exceptions :
    searchSubredditContent (.error "received 503 HTTP response") (.ok []) "q"
        = .error "received 503 HTTP response" ∧
    searchSubreddits (.error "received 503 HTTP response")
        = .error "received 503 HTTP response" :=
  ⟨rfl, rfl⟩

/-- C7 (amended): on a successful write, `save_content_to_file` saves exactly
the given content at `folder/<timestamp>_<sanitized_topic><ext>` with `.md`
for platform "article" and `.txt` otherwise — where the sanitized topic is the
source's `sanitizeTopic` (strip specials, trim, replace each space by an
underscore, THEN collapse hyphen/leftover-whitespace runs, lower-case), which
differs from the spec's reference sanitizer; the spec's own example still
holds: `sanitizeTopic "My Topic!" = "my_topic"`. -/
theorem save_content_filename_and_sanitizer_spec :
    (∀ ts content folder topic platform fs,
      saveContentToFile (.ok ()) (.ok ()) ts content folder topic platform fs =
        ("Successfully saved content to " ++ savedFilePath ts folder topic platform,
         fs ++ [(savedFilePath ts folder topic platform, content)])) ∧
    sanitizeTopic "My Topic!" = "my_topic" := by
  constructor
  · intro ts content folder topic platform fs
    simp only [saveContentToFile, savedFilePath]
    by_cases h : platform = "article"
    · simp [h]
    · by_cases h2 : platform = "x" <;> simp [h, h2]
  · decide

/-- Counterexample to C7 as stated: on `"a  b"` (two spaces) the code's
sanitizer yields `"a__b"` — each space is replaced by an underscore BEFORE
runs are collapsed — while the spec's reference definition (collapse every
whitespace/hyphen run to a single underscore) yields `"a_b"`. -/
theorem sanitizer_differs_from_spec_reference :
    sanitizeTopic "a  b" = "a__b" ∧ specSanitizeTopic "a  b" = "a_b" ∧
      sanitizeTopic "a  b" ≠ specSanitizeTopic "a  b" := by
  decide

/-- C8: the topic sanitization of `save_content_to_file` is idempotent —
applying it to its own output yields the same string. -/
theorem sanitizeTopic_idempotent :
    ∀ s : String, sanitizeTopic (sanitizeTopic s) = sanitizeTopic s := by
  intro s
  exact congrArg String.mk (sanitizeTopicL_idem s.data)

/-- Witness for C5 at a concrete run: one final answer message, empty initial
memory. -/
theorem memory_append_policy_witness :
    ∃ s store2 tail, Agent.chat (.ok [Msg.ai "ans" none]) true "d" "t" "m" ⟨[], []⟩
        = .ok (s, ⟨([] : List Msg)
            ++ [Msg.system ("Today's date is " ++ "d"), Msg.human "m"] ++ tail, store2⟩)
      ∧ tail.length ≤ 1
      ∧ (∀ e, (Except.ok [Msg.ai "ans" none] : Except String (List Msg))
          = Except.error e → tail = [])
      ∧ (∀ msgs last, (Except.ok [Msg.ai "ans" none] : Except String (List Msg))
          = Except.ok msgs → msgs.getLast? = some last → tail = [last]) :=
  memory_append_policy.1 (.ok [Msg.ai "ans" none]) "d" "t" "m" ⟨[], []⟩
